import Mathlib

/-!
Verification of the y-supabase `SupabaseProvider` (src/SupabaseProvider.ts,
compiled at dist/index.mjs) against its natural-language specification.

The development shallowly embeds the provider: bytes are `List Nat`
(Uint8Array entries, each `< 256`), the transport base64 helpers
(`encodeUpdate`/`decodeUpdate`, i.e. `btoa`/`atob` over a char-code string)
are modelled concretely at the level of six-bit groups, and the provider
itself is a state record with one Lean function per class method.  The Yjs
merge engine and the y-protocols awareness container are opaque
collaborators of the provider, so their operations (`Y.applyUpdate`,
`Y.encodeStateVector`, `Y.encodeStateAsUpdate`, `Y.mergeUpdates`,
`applyAwarenessUpdate`, ...) are fields of an abstract `Engine` record;
operations that can throw in JavaScript are `Option`-valued, `none`
standing for the thrown exception observed by the provider's
`try`/`catch` boundaries.
-/

namespace YSupabase

/-- Bytes of a `Uint8Array`: each entry is a `Nat` below 256. -/
abbrev Bytes := List Nat

/-!
## Transport encoding (`encodeUpdate` / `decodeUpdate`)

`encodeUpdate` builds a binary string from the byte array in chunks of
0x8000 = 32768 bytes (`String.fromCharCode` over each chunk, concatenated)
and then applies `btoa`.  A base64 text is modelled as a `List (Option Nat)`:
`some v` is a base64 alphabet character with six-bit value `v` and `none` is
the `=` padding character.
-/

/-- The chunked loop of `encodeUpdate`: the concatenation of the 32768-byte
chunks of `u` (the "binary string" passed to `btoa`, one char code per
byte). -/
def chunksJoin (u : Bytes) : Bytes :=
  if _hu : u = [] then [] else u.take 32768 ++ chunksJoin (u.drop 32768)
termination_by u.length
decreasing_by
  simp only [List.length_drop]
  have hlen : 0 < u.length := List.length_pos.mpr _hu
  omega

/-- `btoa`: encode a byte list into base64 characters, three bytes to four
characters, padding the final group with `=` (`none`). -/
def btoa : Bytes → List (Option Nat)
  | [] => []
  | [a] => [some (a / 4), some (a % 4 * 16), none, none]
  | [a, b] => [some (a / 4), some (a % 4 * 16 + b / 16), some (b % 16 * 4), none]
  | a :: b :: c :: rest =>
      some (a / 4) :: some (a % 4 * 16 + b / 16) :: some (b % 16 * 4 + c / 64) ::
        some (c % 64) :: btoa rest

/-- `atob`: decode base64 characters back into bytes (on well-formed
input; the JavaScript function throws on malformed input, which the
provider-level model represents separately by an `Option`-valued decoder). -/
def atob : List (Option Nat) → Bytes
  | [some w, some x, none, none] => [w * 4 + x / 16]
  | [some w, some x, some y, none] => [w * 4 + x / 16, x % 16 * 16 + y / 4]
  | some w :: some x :: some y :: some z :: rest =>
      (w * 4 + x / 16) :: (x % 16 * 16 + y / 4) :: (y % 4 * 64 + z) :: atob rest
  | _ => []

/-- `encodeUpdate` from the source: chunked char-code string, then `btoa`. -/
def encodeUpdate (update : Bytes) : List (Option Nat) :=
  btoa (chunksJoin update)

/-- `decodeUpdate` from the source: `atob`, then one byte per char code. -/
def decodeUpdate (encoded : List (Option Nat)) : Bytes :=
  atob encoded

theorem chunksJoin_eq (u : Bytes) : chunksJoin u = u := by
  induction u using chunksJoin.induct with
  | case1 => rw [chunksJoin]; simp
  | case2 u h ih => rw [chunksJoin, dif_neg h, ih, List.take_append_drop]

theorem atob_btoa : ∀ u : Bytes, (∀ b ∈ u, b < 256) → atob (btoa u) = u
  | [], _ => by simp [btoa, atob]
  | [a], h => by
      simp only [btoa, atob, List.cons.injEq, and_true]
      omega
  | [a, b], h => by
      have hb : b < 256 := h b (by simp)
      simp only [btoa, atob, List.cons.injEq, and_true]
      omega
  | a :: b :: c :: rest, h => by
      have hb : b < 256 := h b (by simp)
      have hc : c < 256 := h c (by simp)
      have ih := atob_btoa rest (fun x hx => h x (by simp [hx]))
      simp only [btoa, atob, ih, List.cons.injEq, and_true]
      omega

/-!
## The provider state machine

`Provider` carries the mutable fields of the `SupabaseProvider` class.
Timers are modelled by their pending state: `broadcastTimeout : Bool` (a
flush timer is armed) and `reconnectTimeout : Option Nat` (a reconnect
timer armed with the recorded delay).  `channel : Bool` records whether
`this.channel` is non-null, `docListener : Bool` whether the
`handleDocUpdate` listener is attached to the document.  The document and
awareness container are opaque values of types `D` and `A`.
-/

/-- The `Status` union of the source. -/
inductive Status
  | connecting
  | connected
  | disconnected
deriving DecidableEq, Repr

/-- The three broadcast topics (`y-supabase-update`, `y-supabase-state-vector`,
`y-supabase-awareness`). -/
inductive Topic
  | update
  | stateVector
  | awarenessT
deriving DecidableEq, Repr

/-- One message handed to `channel.send`: the topic, the encoded payload
(the `update`/`stateVector` field of the envelope, already transport
encoded) and the sender id placed in `user.id`. -/
structure SentMsg where
  event : Topic
  payload : List Nat
  senderId : String
deriving DecidableEq, Repr

/-- Events `emit`ted to registered listeners. -/
inductive PEvent
  | statusE (s : Status)
  | connectE
  | disconnectE
  | messageE (u : Bytes)
  | awarenessE (u : Bytes)
  | errorE
deriving DecidableEq, Repr

/-- Origin tag of a document update notification; the provider compares the
origin against the string literal `"remote"`. -/
inductive Origin
  | remote
  | localO
deriving DecidableEq, Repr

/-- The opaque collaborators (Yjs merge engine, transport string decoding at
the handler boundary, y-protocols awareness).  Operations that can throw in
JavaScript are `Option`-valued; `none` is the exception caught by the
provider's `try`/`catch`.  `decode` stands for `decodeUpdate` applied to an
arbitrary inbound transport string (`atob` throws on malformed base64). -/
structure Engine (D A : Type) where
  decode : List Nat → Option Bytes
  encode : Bytes → List Nat
  applyUpdate : D → Bytes → Option D
  encodeStateVector : D → Bytes
  encodeStateAsUpdate : D → Bytes → Option Bytes
  mergeUpdates : List Bytes → Bytes
  applyAwarenessUpdate : A → Bytes → Option A
  encodeAwarenessUpdate : A → Bytes
  removeAwarenessStates : A → A

/-- The options record; `none` means the option was not supplied, so the
source-side default (`?? ...`) applies. -/
structure ProviderOptions where
  broadcastThrottleMs : Option Nat := none
  autoReconnect : Option Bool := none
  maxReconnectAttempts : Option Nat := none
  reconnectDelay : Option Nat := none
  maxReconnectDelay : Option Nat := none
deriving DecidableEq, Repr

/-- The mutable fields of a `SupabaseProvider`. -/
structure Provider (D A : Type) where
  channel : Bool
  status : Status
  userId : String
  broadcastTimeout : Bool
  pendingUpdates : List Bytes
  syncedPeers : List String
  reconnectAttempts : Nat
  reconnectTimeout : Option Nat
  shouldReconnect : Bool
  docListener : Bool
  doc : D
  awareness : Option A

/-- Result of one handler run: the new state, the messages sent on the
channel, and the events emitted, in order. -/
abbrev StepResult (D A : Type) := Provider D A × List SentMsg × List PEvent

variable {D A : Type}

/-- `broadcastUpdate`: drop the message if the channel is null, otherwise
send the encoded payload tagged with our own user id. -/
def broadcastUpdate (e : Engine D A) (s : Provider D A) (u : Bytes) (ev : Topic) :
    List SentMsg :=
  if s.channel then [⟨ev, e.encode u, s.userId⟩] else []

/-- `sendStateVector`: broadcast the encoded local state vector on the
state-vector topic (no-op without a channel). -/
def sendStateVector (e : Engine D A) (s : Provider D A) : List SentMsg :=
  if s.channel then
    [⟨Topic.stateVector, e.encode (e.encodeStateVector s.doc), s.userId⟩]
  else []

/-- `queueBroadcast`: immediate broadcast when the throttle is zero,
otherwise push onto `pendingUpdates` and arm the flush timer if none is
armed yet. -/
def queueBroadcast (e : Engine D A) (opts : ProviderOptions) (s : Provider D A)
    (u : Bytes) : StepResult D A :=
  let throttle := opts.broadcastThrottleMs.getD 0
  if throttle = 0 then (s, broadcastUpdate e s u Topic.update, [])
  else
    let s1 := { s with pendingUpdates := s.pendingUpdates ++ [u] }
    if s1.broadcastTimeout then (s1, [], [])
    else ({ s1 with broadcastTimeout := true }, [], [])

/-- The flush timer firing: clear the timer, and unless the buffer is empty
combine the buffered payloads (`Y.mergeUpdates`, or the single payload
unchanged), clear the buffer and broadcast the result. -/
def flushFire (e : Engine D A) (s : Provider D A) : StepResult D A :=
  let s1 := { s with broadcastTimeout := false }
  if s1.pendingUpdates = [] then (s1, [], [])
  else
    let merged :=
      if s1.pendingUpdates.length = 1 then s1.pendingUpdates.headD []
      else e.mergeUpdates s1.pendingUpdates
    ({ s1 with pendingUpdates := [] }, broadcastUpdate e s1 merged Topic.update, [])

/-- `handleDocUpdate`: ignore notifications tagged with the `"remote"`
origin, queue everything else. -/
def handleDocUpdate (e : Engine D A) (opts : ProviderOptions) (s : Provider D A)
    (u : Bytes) (origin : Origin) : StepResult D A :=
  if origin = Origin.remote then (s, [], []) else queueBroadcast e opts s u

/-- `handleRemoteUpdate`: self-filter by sender id, then decode and apply the
payload tagged `"remote"`, emitting `message`; a decode or apply exception
is caught and reported as a single `error` event. -/
def handleRemoteUpdate (e : Engine D A) (s : Provider D A) (senderId : String)
    (payload : List Nat) : StepResult D A :=
  if senderId = s.userId then (s, [], [])
  else
    match e.decode payload with
    | none => (s, [], [PEvent.errorE])
    | some u =>
      match e.applyUpdate s.doc u with
      | none => (s, [], [PEvent.errorE])
      | some d => ({ s with doc := d }, [], [PEvent.messageE u])

/-- `handleRemoteAwareness`: no-op when awareness is disabled, self-filter by
sender id, then decode and apply to the awareness container tagged
`"remote"`, emitting `awareness`; failures are reported as `error`. -/
def handleRemoteAwareness (e : Engine D A) (s : Provider D A) (senderId : String)
    (payload : List Nat) : StepResult D A :=
  match s.awareness with
  | none => (s, [], [])
  | some aw =>
    if senderId = s.userId then (s, [], [])
    else
      match e.decode payload with
      | none => (s, [], [PEvent.errorE])
      | some u =>
        match e.applyAwarenessUpdate aw u with
        | none => (s, [], [PEvent.errorE])
        | some aw2 => ({ s with awareness := some aw2 }, [], [PEvent.awarenessE u])

/-- `handleStateVector`: self-filter, anti-ping-pong guard on
`syncedPeers`, mark the sender synced, then (inside `try`) decode the
vector, compute the diff, broadcast it when longer than the two-byte empty
marker, and reply with the local state vector; exceptions become one
`error` event. -/
def handleStateVector (e : Engine D A) (s : Provider D A) (senderId : String)
    (payload : List Nat) : StepResult D A :=
  if senderId = s.userId then (s, [], [])
  else if senderId ∈ s.syncedPeers then (s, [], [])
  else
    let s1 := { s with syncedPeers := senderId :: s.syncedPeers }
    match e.decode payload with
    | none => (s1, [], [PEvent.errorE])
    | some rsv =>
      match e.encodeStateAsUpdate s1.doc rsv with
      | none => (s1, [], [PEvent.errorE])
      | some diff =>
        (s1,
          (if diff.length > 2 then broadcastUpdate e s1 diff Topic.update else []) ++
            sendStateVector e s1,
          [])

/-- `connect()`: set the reconnect-intent flag, re-register the document
listener, clear the synced-peer set, and create a fresh channel (the
subscribe acknowledgment arrives later as a separate callback). -/
def connect (s : Provider D A) : Provider D A :=
  { s with shouldReconnect := true, docListener := true, syncedPeers := [],
           channel := true }

/-- `scheduleReconnect`: no-op when auto-reconnect is disabled, the intent
flag is false, or the attempt budget is exhausted; otherwise cancel any
pending reconnect timer and arm a new one with delay
`min(reconnectDelay * 2 ^ attempts, maxReconnectDelay)`, incrementing the
attempt counter.  The second component is the delay armed by this call
(`none` when the call was a no-op). -/
def scheduleReconnect (opts : ProviderOptions) (s : Provider D A) :
    Provider D A × Option Nat :=
  let autoReconnect := opts.autoReconnect.getD true
  let exhausted :=
    match opts.maxReconnectAttempts with
    | some m => decide (s.reconnectAttempts ≥ m)
    | none => false
  if !autoReconnect || !s.shouldReconnect || exhausted then (s, none)
  else
    let baseDelay := opts.reconnectDelay.getD 1000
    let maxDelay := opts.maxReconnectDelay.getD 30000
    let delay := min (baseDelay * 2 ^ s.reconnectAttempts) maxDelay
    ({ s with reconnectAttempts := s.reconnectAttempts + 1,
              reconnectTimeout := some delay },
      some delay)

/-- The four channel subscription statuses reported to the `subscribe`
callback. -/
inductive SubscribeStatus
  | subscribed
  | channelError
  | timedOut
  | closed
deriving DecidableEq, Repr

/-- The `subscribe` status callback of `connect()`: on `SUBSCRIBED` set the
status to connected, emit `status`/`connect`, reset the attempt counter,
broadcast the awareness snapshot when awareness is enabled, and send the
local state vector; on the three failure statuses set the status to
disconnected, emit `status`, `error` (except on clean close) and
`disconnect`, and schedule a reconnect. -/
def subscribeCallback (e : Engine D A) (opts : ProviderOptions)
    (s : Provider D A) : SubscribeStatus → StepResult D A
  | SubscribeStatus.subscribed =>
    let s1 := { s with status := Status.connected, reconnectAttempts := 0 }
    let awSends :=
      match s1.awareness with
      | some aw =>
        if s1.channel then
          [⟨Topic.awarenessT, e.encode (e.encodeAwarenessUpdate aw), s1.userId⟩]
        else []
      | none => []
    (s1, awSends ++ sendStateVector e s1,
      [PEvent.statusE Status.connected, PEvent.connectE])
  | SubscribeStatus.channelError =>
    let s1 := { s with status := Status.disconnected }
    ((scheduleReconnect opts s1).1, [],
      [PEvent.statusE Status.disconnected, PEvent.errorE, PEvent.disconnectE])
  | SubscribeStatus.timedOut =>
    let s1 := { s with status := Status.disconnected }
    ((scheduleReconnect opts s1).1, [],
      [PEvent.statusE Status.disconnected, PEvent.errorE, PEvent.disconnectE])
  | SubscribeStatus.closed =>
    let s1 := { s with status := Status.disconnected }
    ((scheduleReconnect opts s1).1, [],
      [PEvent.statusE Status.disconnected, PEvent.disconnectE])

/-- `destroy()`: drop the reconnect intent, cancel both timers, detach the
document listener, remove the local awareness states (which triggers a
departure broadcast through the still-attached awareness listener while
the channel is still set) and leave the channel.  `pendingUpdates` is not
touched by the source. -/
def destroy (e : Engine D A) (s : Provider D A) : Provider D A × List SentMsg :=
  let s1 := { s with shouldReconnect := false, broadcastTimeout := false,
                     reconnectTimeout := none, docListener := false }
  match s1.awareness with
  | some aw =>
    let aw2 := e.removeAwarenessStates aw
    let departure :=
      if s1.channel then
        [⟨Topic.awarenessT, e.encode (e.encodeAwarenessUpdate aw2), s1.userId⟩]
      else []
    ({ s1 with awareness := some aw2, channel := false }, departure)
  | none => ({ s1 with channel := false }, [])

/-- The externally visible events that can reach a provider: method calls,
channel callbacks, message deliveries and timer firings. -/
inductive ProviderEvent
  | connectCall
  | subscribeCb (st : SubscribeStatus)
  | reconnectFire
  | flushTimerFire
  | docUpdate (u : Bytes) (origin : Origin)
  | remoteUpdate (senderId : String) (payload : List Nat)
  | remoteStateVector (senderId : String) (payload : List Nat)
  | remoteAwareness (senderId : String) (payload : List Nat)
  | destroyCall
deriving DecidableEq, Repr

/-- One provider step.  Channel callbacks and message deliveries require a
live channel, the document listener must be attached for a document
notification to reach `handleDocUpdate`, and a timer only fires while it
is armed (the reconnect callback re-checks the intent flag, as in the
source). -/
def step (e : Engine D A) (opts : ProviderOptions) (s : Provider D A) :
    ProviderEvent → StepResult D A
  | ProviderEvent.connectCall => (connect s, [], [])
  | ProviderEvent.subscribeCb st =>
    if s.channel then subscribeCallback e opts s st else (s, [], [])
  | ProviderEvent.reconnectFire =>
    match s.reconnectTimeout with
    | none => (s, [], [])
    | some _ =>
      let s1 := { s with reconnectTimeout := none }
      if s1.shouldReconnect then (connect s1, [], []) else (s1, [], [])
  | ProviderEvent.flushTimerFire =>
    if s.broadcastTimeout then flushFire e s else (s, [], [])
  | ProviderEvent.docUpdate u origin =>
    if s.docListener then handleDocUpdate e opts s u origin else (s, [], [])
  | ProviderEvent.remoteUpdate senderId payload =>
    if s.channel then handleRemoteUpdate e s senderId payload else (s, [], [])
  | ProviderEvent.remoteStateVector senderId payload =>
    if s.channel then handleStateVector e s senderId payload else (s, [], [])
  | ProviderEvent.remoteAwareness senderId payload =>
    if s.channel then handleRemoteAwareness e s senderId payload else (s, [], [])
  | ProviderEvent.destroyCall =>
    let r := destroy e s
    (r.1, r.2, [])

/-- The state built by the constructor (field initializers, then
`connect()` as its last statement). -/
def initialProvider (userId : String) (d : D) (aw : Option A) : Provider D A :=
  connect
    { channel := false, status := Status.connecting, userId := userId,
      broadcastTimeout := false, pendingUpdates := [], syncedPeers := [],
      reconnectAttempts := 0, reconnectTimeout := none, shouldReconnect := true,
      docListener := false, doc := d, awareness := aw }

/-- A concrete engine whose fallible operations all throw: used to exercise
the failure branches on closed inputs. -/
def failEngine : Engine Unit Unit :=
  { decode := fun _ => none, encode := fun u => u,
    applyUpdate := fun _ _ => none, encodeStateVector := fun _ => [0, 0],
    encodeStateAsUpdate := fun _ _ => none, mergeUpdates := fun _ => [],
    applyAwarenessUpdate := fun _ _ => none, encodeAwarenessUpdate := fun _ => [],
    removeAwarenessStates := fun a => a }

/-- A concrete engine whose fallible operations all succeed: used to
exercise the success branches on closed inputs. -/
def okEngine : Engine Unit Unit :=
  { decode := fun l => some l, encode := fun u => u,
    applyUpdate := fun _ _ => some (), encodeStateVector := fun _ => [0, 0],
    encodeStateAsUpdate := fun _ rsv => some (0 :: 0 :: rsv),
    mergeUpdates := fun us => us.flatten,
    applyAwarenessUpdate := fun _ _ => some (), encodeAwarenessUpdate := fun _ => [],
    removeAwarenessStates := fun a => a }

/-- A quiescent provider right after construction (no awareness). -/
def p0 : Provider Unit Unit := initialProvider "me" () none

/-!
## Claim theorems
-/

/-- Claim C1: for every peer session id `p` different from the coordinator's
own `userId`, delivering a state-vector message from `p` twice within one
connection epoch makes the second delivery a complete no-op: the state is
unchanged and no message is sent (and no event emitted); only the first
delivery may broadcast a diff and a state-vector reply. -/
theorem second_state_vector_delivery_is_silent (e : Engine D A)
    (s : Provider D A) (p : String) (pay1 pay2 : List Nat)
    (hp : p ≠ s.userId) :
    handleStateVector e (handleStateVector e s p pay1).1 p pay2 =
      ((handleStateVector e s p pay1).1, [], []) := by
  by_cases hmem : p ∈ s.syncedPeers
  · simp [handleStateVector, hp, hmem]
  · cases hdec : e.decode pay1 with
    | none => simp [handleStateVector, hp, hmem, hdec]
    | some rsv =>
      cases hdiff : e.encodeStateAsUpdate s.doc rsv with
      | none => simp [handleStateVector, hp, hmem, hdec, hdiff]
      | some diff => simp [handleStateVector, hp, hmem, hdec, hdiff]

/-- Witness for C1 at a concrete provider and payloads. -/
theorem second_state_vector_delivery_is_silent_witness :
    "peer" ≠ p0.userId ∧
    handleStateVector failEngine (handleStateVector failEngine p0 "peer" [1]).1
        "peer" [2] =
      ((handleStateVector failEngine p0 "peer" [1]).1, [], []) :=
  ⟨by decide,
    second_state_vector_delivery_is_silent failEngine p0 "peer" [1] [2] (by decide)⟩

/-- Claim C3: an update-topic or awareness-topic message whose sender id
equals the coordinator's own session id is never applied and never raises
the `message` or `awareness` event: both handlers return with the state
unchanged and nothing sent or emitted. -/
theorem self_messages_never_applied (e : Engine D A) (s : Provider D A)
    (senderId : String) (payload : List Nat) (h : senderId = s.userId) :
    handleRemoteUpdate e s senderId payload = (s, [], []) ∧
    handleRemoteAwareness e s senderId payload = (s, [], []) := by
  constructor
  · simp [handleRemoteUpdate, h]
  · cases haw : s.awareness <;> simp [handleRemoteAwareness, h, haw]

/-- Witness for C3: a self-addressed message at a concrete provider. -/
theorem self_messages_never_applied_witness :
    "me" = p0.userId ∧
    (handleRemoteUpdate okEngine p0 "me" [1] = (p0, [], []) ∧
      handleRemoteAwareness okEngine p0 "me" [1] = (p0, [], [])) :=
  ⟨by decide, self_messages_never_applied okEngine p0 "me" [1] (by decide)⟩

/-- Claim C8: an update-topic payload from a non-self sender whose decoding
or application fails yields exactly one `error` event, leaves the document
(indeed the whole state) unchanged, and the handler returns normally. -/
theorem undecodable_update_single_error (e : Engine D A) (s : Provider D A)
    (senderId : String) (payload : List Nat) (hself : senderId ≠ s.userId)
    (hfail : e.decode payload = none ∨
      ∃ u, e.decode payload = some u ∧ e.applyUpdate s.doc u = none) :
    handleRemoteUpdate e s senderId payload = (s, [], [PEvent.errorE]) := by
  rcases hfail with h | ⟨u, h1, h2⟩
  · simp [handleRemoteUpdate, hself, h]
  · simp [handleRemoteUpdate, hself, h1, h2]

/-- Witness for C8: a malformed payload from another peer. -/
theorem undecodable_update_single_error_witness :
    ("other" ≠ p0.userId ∧ failEngine.decode [9] = none) ∧
    handleRemoteUpdate failEngine p0 "other" [9] = (p0, [], [PEvent.errorE]) :=
  ⟨⟨by decide, rfl⟩,
    undecodable_update_single_error failEngine p0 "other" [9] (by decide)
      (Or.inl rfl)⟩

/-- Claim C9: the transport base64 encoding round-trips exactly: for every
byte array (entries below 256, any length including beyond the 32768-byte
chunk size), `decodeUpdate (encodeUpdate u) = u`. -/
theorem decodeUpdate_encodeUpdate_roundtrip (u : Bytes)
    (h : ∀ b ∈ u, b < 256) : decodeUpdate (encodeUpdate u) = u := by
  unfold decodeUpdate encodeUpdate
  rw [chunksJoin_eq]
  exact atob_btoa u h

/-- Witness for C9 at a concrete byte array. -/
theorem decodeUpdate_encodeUpdate_roundtrip_witness :
    (∀ b ∈ [72, 0, 255, 1, 130], b < 256) ∧
    decodeUpdate (encodeUpdate [72, 0, 255, 1, 130]) = [72, 0, 255, 1, 130] :=
  ⟨by decide, decodeUpdate_encodeUpdate_roundtrip [72, 0, 255, 1, 130] (by decide)⟩

/-- Claim C10: `handleStateVector` marks the sender synced before decoding,
so a state-vector message from a non-self sender whose payload fails to
decode still adds the sender to the synced-peer set (emitting one `error`
and sending nothing); afterwards every further state-vector message from
that sender is ignored until `connect()` clears the set. -/
theorem malformed_state_vector_still_marks_synced (e : Engine D A)
    (s : Provider D A) (p : String) (payload : List Nat)
    (hp : p ≠ s.userId) (hmem : p ∉ s.syncedPeers)
    (hdec : e.decode payload = none) :
    handleStateVector e s p payload =
      ({ s with syncedPeers := p :: s.syncedPeers }, [], [PEvent.errorE]) ∧
    (∀ pay2, handleStateVector e { s with syncedPeers := p :: s.syncedPeers } p pay2 =
      ({ s with syncedPeers := p :: s.syncedPeers }, [], [])) ∧
    (connect { s with syncedPeers := p :: s.syncedPeers }).syncedPeers = [] := by
  refine ⟨?_, ?_, rfl⟩
  · simp [handleStateVector, hp, hmem, hdec]
  · intro pay2
    simp [handleStateVector, hp]

/-- Witness for C10: a malformed state vector from a concrete peer. -/
theorem malformed_state_vector_still_marks_synced_witness :
    ("peer" ≠ p0.userId ∧ "peer" ∉ p0.syncedPeers ∧ failEngine.decode [7] = none) ∧
    (handleStateVector failEngine p0 "peer" [7] =
      ({ p0 with syncedPeers := ["peer"] }, [], [PEvent.errorE]) ∧
    (∀ pay2, handleStateVector failEngine { p0 with syncedPeers := ["peer"] } "peer" pay2 =
      ({ p0 with syncedPeers := ["peer"] }, [], [])) ∧
    (connect { p0 with syncedPeers := ["peer"] }).syncedPeers = []) :=
  ⟨⟨by decide, by decide, rfl⟩,
    malformed_state_vector_still_marks_synced failEngine p0 "peer" [7]
      (by decide) (by decide) rfl⟩

/-!
### C2: throttled merge
-/

/-- A sequence of local (non-remote) document edits delivered to the
provider in order: each runs `handleDocUpdate`, and the sent messages are
collected in order. -/
def runLocalEdits (e : Engine D A) (opts : ProviderOptions) :
    Provider D A → List Bytes → Provider D A × List SentMsg
  | s, [] => (s, [])
  | s, u :: us =>
    let r := handleDocUpdate e opts s u Origin.localO
    let rest := runLocalEdits e opts r.1 us
    (rest.1, r.2.1 ++ rest.2)

/-- With a non-zero throttle, local edits only accumulate in
`pendingUpdates` (in order), arm the flush timer, and send nothing. -/
theorem runLocalEdits_throttled (e : Engine D A) (opts : ProviderOptions)
    (hthr : opts.broadcastThrottleMs.getD 0 ≠ 0) :
    ∀ (us : List Bytes) (s : Provider D A),
      runLocalEdits e opts s us =
        ({ s with pendingUpdates := s.pendingUpdates ++ us,
                  broadcastTimeout := (s.broadcastTimeout || !us.isEmpty) }, [])
  | [], s => by simp [runLocalEdits]
  | u :: us, s => by
    have ih := runLocalEdits_throttled e opts hthr us
    by_cases hb : s.broadcastTimeout
    · simp [runLocalEdits, handleDocUpdate, queueBroadcast, hthr, hb, ih]
    · simp [runLocalEdits, handleDocUpdate, queueBroadcast, hthr, hb, ih]

/-- Claim C2: with `broadcastThrottleMs` positive, any `N ≥ 1` local edits
within one throttle window send nothing while the window is open, and the
flush timer firing produces exactly one update broadcast whose payload is
`Y.mergeUpdates` of the `N` buffered payloads (the single payload passed
through unchanged when `N = 1`). -/
theorem throttled_edits_merge_into_one_broadcast (e : Engine D A)
    (opts : ProviderOptions) (s : Provider D A) (us : List Bytes) (t : Nat)
    (hthr : opts.broadcastThrottleMs = some t) (ht : 0 < t)
    (hchan : s.channel = true) (hpend : s.pendingUpdates = [])
    (_htim : s.broadcastTimeout = false) (hne : us ≠ []) :
    (runLocalEdits e opts s us).2 = [] ∧
    flushFire e (runLocalEdits e opts s us).1 =
      ({ (runLocalEdits e opts s us).1 with
          broadcastTimeout := false
          pendingUpdates := [] },
        [⟨Topic.update,
          e.encode (if us.length = 1 then us.headD [] else e.mergeUpdates us),
          s.userId⟩],
        []) := by
  have hthr0 : opts.broadcastThrottleMs.getD 0 ≠ 0 := by
    rw [hthr]; simpa using Nat.pos_iff_ne_zero.mp ht
  rw [runLocalEdits_throttled e opts hthr0 us s]
  refine ⟨rfl, ?_⟩
  simp [flushFire, broadcastUpdate, hpend, hchan, hne]

/-- Witness for C2: two edits under a 100 ms throttle at a concrete
provider. -/
theorem throttled_edits_merge_into_one_broadcast_witness :
    (({ broadcastThrottleMs := some 100 } : ProviderOptions).broadcastThrottleMs
        = some 100 ∧
      0 < 100 ∧ p0.channel = true ∧ p0.pendingUpdates = [] ∧
      p0.broadcastTimeout = false ∧ ([[1], [2]] : List Bytes) ≠ []) ∧
    ((runLocalEdits okEngine { broadcastThrottleMs := some 100 } p0
        [[1], [2]]).2 = [] ∧
    flushFire okEngine (runLocalEdits okEngine { broadcastThrottleMs := some 100 }
        p0 [[1], [2]]).1 =
      ({ (runLocalEdits okEngine { broadcastThrottleMs := some 100 } p0
            [[1], [2]]).1 with
          broadcastTimeout := false
          pendingUpdates := [] },
        [⟨Topic.update,
          okEngine.encode (if ([[1], [2]] : List Bytes).length = 1
            then ([[1], [2]] : List Bytes).headD [] else okEngine.mergeUpdates [[1], [2]]),
          p0.userId⟩],
        [])) :=
  ⟨⟨rfl, by decide, rfl, rfl, rfl, by decide⟩,
    throttled_edits_merge_into_one_broadcast okEngine
      { broadcastThrottleMs := some 100 } p0 [[1], [2]] 100 rfl (by decide)
      rfl rfl rfl (by decide)⟩

/-!
### C4: reconnect backoff
-/

/-- The backoff delay formula of the spec:
`min(reconnectDelay * 2 ^ attempts, maxReconnectDelay)` with the defaults
1000 ms and 30000 ms. -/
def backoffDelay (opts : ProviderOptions) (k : Nat) : Nat :=
  min (opts.reconnectDelay.getD 1000 * 2 ^ k) (opts.maxReconnectDelay.getD 30000)

/-- Claim C4: whenever `scheduleReconnect` arms a timer at attempt count
`k`, the delay equals `min(reconnectDelay * 2^k, maxReconnectDelay)`
(defaults 1000 ms / 30000 ms); the delay sequence over attempts is
non-decreasing and never exceeds the configured maximum. -/
theorem reconnect_backoff_delay (opts : ProviderOptions) (s : Provider D A)
    (d : Nat) (h : (scheduleReconnect opts s).2 = some d) :
    d = backoffDelay opts s.reconnectAttempts ∧
    (∀ k, backoffDelay opts k ≤ backoffDelay opts (k + 1)) ∧
    (∀ k, backoffDelay opts k ≤ opts.maxReconnectDelay.getD 30000) := by
  refine ⟨?_, ?_, fun k => Nat.min_le_right _ _⟩
  · unfold scheduleReconnect at h
    dsimp only at h
    split at h
    · exact absurd h (by simp)
    · rw [Option.some_inj] at h
      exact h.symm
  · intro k
    unfold backoffDelay
    exact min_le_min
      (Nat.mul_le_mul_left _ (Nat.pow_le_pow_right (by norm_num) (Nat.le_succ k)))
      (le_refl _)

/-- Witness for C4: the first reconnect attempt with default options arms a
1000 ms timer. -/
theorem reconnect_backoff_delay_witness :
    (scheduleReconnect {} p0).2 = some 1000 ∧
    (1000 = backoffDelay {} p0.reconnectAttempts ∧
    (∀ k, backoffDelay {} k ≤ backoffDelay {} (k + 1)) ∧
    (∀ k, backoffDelay {} k ≤ ({} : ProviderOptions).maxReconnectDelay.getD 30000)) :=
  ⟨rfl, reconnect_backoff_delay {} p0 1000 rfl⟩

/-!
### Field-preservation helpers

The handlers below never touch the connection status, the pending update
buffer or the flush timer; these lemmas record that for the transition
proofs of C5 and C7.
-/

theorem scheduleReconnect_preserves (opts : ProviderOptions) (s : Provider D A) :
    ((scheduleReconnect opts s).1).status = s.status ∧
    ((scheduleReconnect opts s).1).pendingUpdates = s.pendingUpdates ∧
    ((scheduleReconnect opts s).1).broadcastTimeout = s.broadcastTimeout := by
  unfold scheduleReconnect
  dsimp only
  split <;> exact ⟨rfl, rfl, rfl⟩

theorem handleRemoteUpdate_preserves (e : Engine D A) (s : Provider D A)
    (p : String) (pay : List Nat) :
    ((handleRemoteUpdate e s p pay).1).status = s.status ∧
    ((handleRemoteUpdate e s p pay).1).pendingUpdates = s.pendingUpdates ∧
    ((handleRemoteUpdate e s p pay).1).broadcastTimeout = s.broadcastTimeout := by
  unfold handleRemoteUpdate
  repeat' split
  all_goals exact ⟨rfl, rfl, rfl⟩

theorem handleRemoteAwareness_preserves (e : Engine D A) (s : Provider D A)
    (p : String) (pay : List Nat) :
    ((handleRemoteAwareness e s p pay).1).status = s.status ∧
    ((handleRemoteAwareness e s p pay).1).pendingUpdates = s.pendingUpdates ∧
    ((handleRemoteAwareness e s p pay).1).broadcastTimeout = s.broadcastTimeout := by
  unfold handleRemoteAwareness
  repeat' split
  all_goals exact ⟨rfl, rfl, rfl⟩

theorem handleStateVector_preserves (e : Engine D A) (s : Provider D A)
    (p : String) (pay : List Nat) :
    ((handleStateVector e s p pay).1).status = s.status ∧
    ((handleStateVector e s p pay).1).pendingUpdates = s.pendingUpdates ∧
    ((handleStateVector e s p pay).1).broadcastTimeout = s.broadcastTimeout := by
  unfold handleStateVector
  dsimp only
  repeat' split
  all_goals exact ⟨rfl, rfl, rfl⟩

theorem subscribeCallback_preserves_buffer (e : Engine D A)
    (opts : ProviderOptions) (s : Provider D A) (st : SubscribeStatus) :
    ((subscribeCallback e opts s st).1).pendingUpdates = s.pendingUpdates ∧
    ((subscribeCallback e opts s st).1).broadcastTimeout = s.broadcastTimeout := by
  cases st with
  | subscribed => exact ⟨rfl, rfl⟩
  | channelError =>
    have h := scheduleReconnect_preserves opts
      { s with status := Status.disconnected }
    exact ⟨h.2.1, h.2.2⟩
  | timedOut =>
    have h := scheduleReconnect_preserves opts
      { s with status := Status.disconnected }
    exact ⟨h.2.1, h.2.2⟩
  | closed =>
    have h := scheduleReconnect_preserves opts
      { s with status := Status.disconnected }
    exact ⟨h.2.1, h.2.2⟩

theorem destroy_preserves (e : Engine D A) (s : Provider D A) :
    ((destroy e s).1).status = s.status ∧
    ((destroy e s).1).pendingUpdates = s.pendingUpdates ∧
    ((destroy e s).1).broadcastTimeout = false := by
  unfold destroy
  dsimp only
  cases s.awareness with
  | none => exact ⟨rfl, rfl, rfl⟩
  | some aw => exact ⟨rfl, rfl, rfl⟩

theorem queueBroadcast_status (e : Engine D A) (opts : ProviderOptions)
    (s : Provider D A) (u : Bytes) :
    ((queueBroadcast e opts s u).1).status = s.status := by
  unfold queueBroadcast
  dsimp only
  split
  · rfl
  · split <;> rfl

theorem flushFire_status (e : Engine D A) (s : Provider D A) :
    ((flushFire e s).1).status = s.status := by
  unfold flushFire
  dsimp only
  split <;> rfl

/-!
### C5: status transitions
-/

/-- The transition set named by the spec: connecting→connected,
connected↔disconnected, and disconnected→connecting on retry. -/
def specStatusTransition (a b : Status) : Prop :=
  (a = Status.connecting ∧ b = Status.connected) ∨
  (a = Status.connected ∧ b = Status.disconnected) ∨
  (a = Status.disconnected ∧ b = Status.connected) ∨
  (a = Status.disconnected ∧ b = Status.connecting)

instance (a b : Status) : Decidable (specStatusTransition a b) := by
  unfold specStatusTransition
  infer_instance

/-- Counterexample to C5 as stated: when the very first subscription attempt
fails with a channel error, the status moves connecting→disconnected, a
transition outside the spec's set. -/
theorem status_transition_outside_spec_set :
    p0.status = Status.connecting ∧
    (step failEngine {} p0 (ProviderEvent.subscribeCb
        SubscribeStatus.channelError)).1.status = Status.disconnected ∧
    ¬ specStatusTransition p0.status
      (step failEngine {} p0 (ProviderEvent.subscribeCb
        SubscribeStatus.channelError)).1.status := by
  refine ⟨rfl, rfl, by decide⟩

/-- C5 as amended: every event either leaves the status unchanged or moves
it to `connected` or `disconnected`; the status never returns to
`connecting` (in particular, a retry reconnects from `disconnected`
directly to `connected`, and a failed first subscription moves
connecting→disconnected). -/
theorem status_changes_only_to_connected_or_disconnected (e : Engine D A)
    (opts : ProviderOptions) (s : Provider D A) (ev : ProviderEvent)
    (h : (step e opts s ev).1.status ≠ s.status) :
    (step e opts s ev).1.status = Status.connected ∨
    (step e opts s ev).1.status = Status.disconnected := by
  cases ev with
  | connectCall => exact absurd rfl h
  | subscribeCb st =>
    by_cases hc : s.channel
    · cases st with
      | subscribed => exact Or.inl (by simp [step, hc, subscribeCallback])
      | channelError =>
        refine Or.inr ?_
        simp only [step, hc, if_true, subscribeCallback]
        exact (scheduleReconnect_preserves opts _).1
      | timedOut =>
        refine Or.inr ?_
        simp only [step, hc, if_true, subscribeCallback]
        exact (scheduleReconnect_preserves opts _).1
      | closed =>
        refine Or.inr ?_
        simp only [step, hc, if_true, subscribeCallback]
        exact (scheduleReconnect_preserves opts _).1
    · exact absurd (by simp [step, hc]) h
  | reconnectFire =>
    exfalso
    apply h
    simp only [step]
    cases s.reconnectTimeout with
    | none => rfl
    | some d =>
      dsimp only
      split <;> rfl
  | flushTimerFire =>
    exfalso
    apply h
    by_cases hb : s.broadcastTimeout
    · simp only [step, hb, if_true]
      exact flushFire_status e s
    · simp [step, hb]
  | docUpdate u origin =>
    exfalso
    apply h
    by_cases hl : s.docListener
    · simp only [step, hl, if_true, handleDocUpdate]
      split
      · rfl
      · exact queueBroadcast_status e opts s u
    · simp [step, hl]
  | remoteUpdate p pay =>
    exfalso
    apply h
    by_cases hc : s.channel
    · simp only [step, hc, if_true]
      exact (handleRemoteUpdate_preserves e s p pay).1
    · simp [step, hc]
  | remoteStateVector p pay =>
    exfalso
    apply h
    by_cases hc : s.channel
    · simp only [step, hc, if_true]
      exact (handleStateVector_preserves e s p pay).1
    · simp [step, hc]
  | remoteAwareness p pay =>
    exfalso
    apply h
    by_cases hc : s.channel
    · simp only [step, hc, if_true]
      exact (handleRemoteAwareness_preserves e s p pay).1
    · simp [step, hc]
  | destroyCall =>
    exact absurd (destroy_preserves e s).1 h

/-- Witness for the amended C5: a successful first subscription changes the
status, and the new status is `connected`. -/
theorem status_changes_only_to_connected_or_disconnected_witness :
    (step okEngine {} p0 (ProviderEvent.subscribeCb
        SubscribeStatus.subscribed)).1.status ≠ p0.status ∧
    ((step okEngine {} p0 (ProviderEvent.subscribeCb
        SubscribeStatus.subscribed)).1.status = Status.connected ∨
      (step okEngine {} p0 (ProviderEvent.subscribeCb
        SubscribeStatus.subscribed)).1.status = Status.disconnected) :=
  ⟨by decide,
    status_changes_only_to_connected_or_disconnected okEngine {} p0
      (ProviderEvent.subscribeCb SubscribeStatus.subscribed) (by decide)⟩

/-!
### C6: the state-vector reply
-/

/-- Counterexample to C6 as stated: a first-in-epoch state-vector message
from a non-self peer whose payload fails to decode produces no messages at
all — in particular no state-vector reply — because the reply sits inside
the `try` block after the decode. -/
theorem first_state_vector_no_reply_on_malformed :
    "peer" ≠ p0.userId ∧ "peer" ∉ p0.syncedPeers ∧
    failEngine.decode [99] = none ∧
    (handleStateVector failEngine p0 "peer" [99]).2.1 = [] := by
  exact ⟨by decide, by decide, rfl, rfl⟩

/-- C6 as amended: on the first delivery in an epoch of a state-vector
message from a non-self peer, provided the payload decodes and the diff
computation succeeds (and the channel is live), the coordinator always
replies with its local state vector — also when the diff is at or below
the two-byte empty marker and no diff is broadcast. -/
theorem first_state_vector_reply_on_decodable (e : Engine D A)
    (s : Provider D A) (p : String) (payload : List Nat) (rsv diff : Bytes)
    (hp : p ≠ s.userId) (hmem : p ∉ s.syncedPeers) (hchan : s.channel = true)
    (hdec : e.decode payload = some rsv)
    (hdiff : e.encodeStateAsUpdate s.doc rsv = some diff) :
    (handleStateVector e s p payload).2.1 =
      (if diff.length > 2 then
        [⟨Topic.update, e.encode diff, s.userId⟩]
      else []) ++
        [⟨Topic.stateVector, e.encode (e.encodeStateVector s.doc), s.userId⟩] := by
  simp [handleStateVector, hp, hmem, hdec, hdiff, broadcastUpdate,
    sendStateVector, hchan]

/-- Witness for the amended C6: a decodable empty state vector whose diff
(`[0, 0, 9]`, length 3) exceeds the marker, at a concrete provider. -/
theorem first_state_vector_reply_on_decodable_witness :
    ("peer" ≠ p0.userId ∧ "peer" ∉ p0.syncedPeers ∧ p0.channel = true ∧
      okEngine.decode [9] = some [9] ∧
      okEngine.encodeStateAsUpdate p0.doc [9] = some [0, 0, 9]) ∧
    (handleStateVector okEngine p0 "peer" [9]).2.1 =
      (if ([0, 0, 9] : Bytes).length > 2 then
        [⟨Topic.update, okEngine.encode [0, 0, 9], p0.userId⟩]
      else []) ++
        [⟨Topic.stateVector, okEngine.encode (okEngine.encodeStateVector p0.doc),
          p0.userId⟩] :=
  ⟨⟨by decide, by decide, rfl, rfl, rfl⟩,
    first_state_vector_reply_on_decodable okEngine p0 "peer" [9] [9] [0, 0, 9]
      (by decide) (by decide) rfl rfl rfl⟩

/-!
### C7: the flush-timer invariant and destroy
-/

/-- The buffer/timer invariant of the spec's data-model table. -/
def FlushInv (s : Provider D A) : Prop :=
  s.broadcastTimeout = true ↔ s.pendingUpdates ≠ []

instance (s : Provider D A) : Decidable (FlushInv s) := by
  unfold FlushInv
  infer_instance

/-- Counterexample to C7 as stated: one throttled local edit followed by
`destroy()` leaves the pending buffer non-empty with no flush timer armed
— `destroy()` cancels the timer but does not clear `pendingUpdates`. -/
theorem destroy_leaves_pending_buffer :
    (step okEngine { broadcastThrottleMs := some 100 }
        (step okEngine { broadcastThrottleMs := some 100 } p0
          (ProviderEvent.docUpdate [7] Origin.localO)).1
        ProviderEvent.destroyCall).1.broadcastTimeout = false ∧
    (step okEngine { broadcastThrottleMs := some 100 }
        (step okEngine { broadcastThrottleMs := some 100 } p0
          (ProviderEvent.docUpdate [7] Origin.localO)).1
        ProviderEvent.destroyCall).1.pendingUpdates = [[7]] ∧
    ¬ FlushInv (step okEngine { broadcastThrottleMs := some 100 }
        (step okEngine { broadcastThrottleMs := some 100 } p0
          (ProviderEvent.docUpdate [7] Origin.localO)).1
        ProviderEvent.destroyCall).1 := by
  exact ⟨rfl, rfl, by decide⟩

/-- C7 as amended: "a flush timer is armed iff the pending buffer is
non-empty" is preserved by every provider event except `destroy()`;
`destroy()` always cancels the flush timer but leaves `pendingUpdates`
untouched, so after a `destroy()` with a non-empty buffer the invariant is
broken in the buffer-without-timer direction. -/
theorem flush_timer_invariant (e : Engine D A) (opts : ProviderOptions)
    (s : Provider D A) (hInv : FlushInv s) :
    (∀ ev, ev ≠ ProviderEvent.destroyCall → FlushInv (step e opts s ev).1) ∧
    (step e opts s ProviderEvent.destroyCall).1.broadcastTimeout = false ∧
    (step e opts s ProviderEvent.destroyCall).1.pendingUpdates =
      s.pendingUpdates := by
  refine ⟨?_, (destroy_preserves e s).2.2, (destroy_preserves e s).2.1⟩
  intro ev hne
  cases ev with
  | connectCall => exact hInv
  | subscribeCb st =>
    by_cases hc : s.channel
    · have h := subscribeCallback_preserves_buffer e opts s st
      simp only [step, hc, if_true]
      unfold FlushInv
      rw [h.1, h.2]
      exact hInv
    · simpa [step, hc] using hInv
  | reconnectFire =>
    simp only [step]
    cases s.reconnectTimeout with
    | none => exact hInv
    | some d =>
      dsimp only
      split
      · exact hInv
      · exact hInv
  | flushTimerFire =>
    by_cases hb : s.broadcastTimeout
    · simp only [step, hb, if_true]
      unfold flushFire
      dsimp only
      split
      · unfold FlushInv at *
        simp_all
      · unfold FlushInv
        simp
    · simpa [step, hb] using hInv
  | docUpdate u origin =>
    by_cases hl : s.docListener
    · simp only [step, hl, if_true]
      unfold handleDocUpdate
      split
      · exact hInv
      · unfold queueBroadcast
        dsimp only
        split
        · exact hInv
        · split
          · rename_i hq
            unfold FlushInv at *
            simp_all
          · unfold FlushInv
            simp
    · simpa [step, hl] using hInv
  | remoteUpdate p pay =>
    by_cases hc : s.channel
    · have h := handleRemoteUpdate_preserves e s p pay
      simp only [step, hc, if_true]
      unfold FlushInv
      rw [h.2.1, h.2.2]
      exact hInv
    · simpa [step, hc] using hInv
  | remoteStateVector p pay =>
    by_cases hc : s.channel
    · have h := handleStateVector_preserves e s p pay
      simp only [step, hc, if_true]
      unfold FlushInv
      rw [h.2.1, h.2.2]
      exact hInv
    · simpa [step, hc] using hInv
  | remoteAwareness p pay =>
    by_cases hc : s.channel
    · have h := handleRemoteAwareness_preserves e s p pay
      simp only [step, hc, if_true]
      unfold FlushInv
      rw [h.2.1, h.2.2]
      exact hInv
    · simpa [step, hc] using hInv
  | destroyCall => exact absurd rfl hne

/-- Witness for the amended C7 at the freshly constructed provider. -/
theorem flush_timer_invariant_witness :
    FlushInv p0 ∧
    ((∀ ev, ev ≠ ProviderEvent.destroyCall →
        FlushInv (step okEngine {} p0 ev).1) ∧
      (step okEngine {} p0 ProviderEvent.destroyCall).1.broadcastTimeout = false ∧
      (step okEngine {} p0 ProviderEvent.destroyCall).1.pendingUpdates =
        p0.pendingUpdates) :=
  ⟨by decide, flush_timer_invariant okEngine {} p0 (by decide)⟩

end YSupabase
